import Mathlib

/-!
Verification of the x402 payment-request orchestration core
(`ProcessX402Request.execute` in `src/application/usecases/ProcessX402Request.ts`).

The orchestrator is embedded shallowly: the three injected ports
(vendor repository, product repository, payment gateway) become structures of
Lean functions, and `execute` becomes a pure function that, besides its
result, records the ordered list of payment-gateway calls it performed
(the call trace), so that temporal properties (settlement at most once,
no mutating calls on read-only paths) are statable.  A thrown exception
escaping `execute` (the TypeScript code has no try/catch, so a decode
failure in `parsePaymentHeader` rejects the promise) is modelled as
`Except.error`.
-/

/-- Vendor entity: the fields of `Vendor` that the orchestrator reads. -/
structure Vendor where
  id : String
  name : String
  evmAddress : String
deriving Repr, DecidableEq

/-- Product entity: the fields of `Product` that the orchestrator reads,
including the content payload `data`. -/
structure Product where
  id : String
  vendorId : String
  path : String
  price : String
  network : String
  description : String
  mimeType : String
  data : String
deriving Repr, DecidableEq

/-- Resource descriptor (`ResourceInfo` from the x402 library):
URL, product description, product MIME type. -/
structure ResourceInfo where
  url : String
  description : String
  mimeType : String
deriving Repr, DecidableEq

/-- Requirement-build request (`ResourceConfig` from the x402 library).
The timeout field is optional in the library type; the orchestrator always
supplies it. -/
structure ResourceConfig where
  scheme : String
  network : String
  price : String
  payTo : String
  maxTimeoutSeconds : Option Nat
deriving Repr, DecidableEq

/-- One accepted payment method (`PaymentRequirements` from the x402 library).
The scheme-specific `extra` object is modelled as an opaque string, with the
empty string standing for the empty object. -/
structure PaymentRequirements where
  scheme : String
  network : String
  asset : String
  amount : String
  payTo : String
  maxTimeoutSeconds : Nat
  extra : String
deriving Repr, DecidableEq

/-- Payment proof supplied by the client (`PaymentPayload` from the x402
library): protocol version, the resource as claimed by the client, the
requirement the client claims to satisfy, and an opaque proof blob. -/
structure PaymentPayload where
  x402Version : Nat
  resource : ResourceInfo
  accepted : PaymentRequirements
  payload : String
deriving Repr, DecidableEq

/-- Payment challenge (`PaymentRequired` from the x402 library): protocol
version, list of acceptable requirements, resource descriptor. -/
structure PaymentRequired where
  x402Version : Nat
  accepts : List PaymentRequirements
  resource : ResourceInfo
deriving Repr, DecidableEq

/-- Verification outcome (`VerifyResponse` from the x402 library). -/
structure VerifyResponse where
  isValid : Bool
  invalidReason : Option String
  payer : Option String
deriving Repr, DecidableEq

/-- Settlement outcome (`SettleResponse` from the x402 library). -/
structure SettleResponse where
  success : Bool
  transaction : String
  network : String
  payer : Option String
  errorReason : Option String
deriving Repr, DecidableEq

/-- Vendor repository port: the one operation the orchestrator uses. -/
structure IVendorRepository where
  findById : String → Option Vendor

/-- Product repository port: the one operation the orchestrator uses. -/
structure IProductRepository where
  findByVendorIdAndPath : String → String → Option Product

/-- Payment gateway port (`IPaymentGateway`): the six operations the
orchestrator invokes.  `parsePaymentHeader` may fail (the adapter throws on a
malformed header); the other operations are total.  The `Except` error value
models the exception text. -/
structure IPaymentGateway where
  buildPaymentRequirements : ResourceConfig → List PaymentRequirements
  createPaymentRequiredResponse : List PaymentRequirements → ResourceInfo → PaymentRequired
  parsePaymentHeader : String → Except String PaymentPayload
  findMatchingRequirements : List PaymentRequirements → PaymentPayload → Option PaymentRequirements
  verifyPayment : PaymentPayload → PaymentRequirements → VerifyResponse
  settlePayment : PaymentPayload → PaymentRequirements → SettleResponse

/-- The orchestrator result type (`ProcessX402Result`): the five terminal
outcome variants. -/
inductive ProcessX402Result where
  | payment_required (paymentRequired : PaymentRequired)
  | success (settleResponse : SettleResponse) (product : Product)
  | verification_failed (reason : String)
  | settlement_failed (reason : String)
  | not_found (reason : String)
deriving Repr, DecidableEq

/-- The orchestrator input (`ProcessX402Input`).  `paymentHeader` is an
optional string field. -/
structure ProcessX402Input where
  vendorId : String
  path : String
  resourceUrl : String
  paymentHeader : Option String
deriving Repr, DecidableEq

/-- One recorded call to the payment gateway, with its arguments.  Repository
lookups are read-only and not recorded; the recorded calls suffice for the
temporal properties about the gateway. -/
inductive GatewayCall where
  | buildPaymentRequirements (config : ResourceConfig)
  | createPaymentRequiredResponse (requirements : List PaymentRequirements) (resourceInfo : ResourceInfo)
  | parsePaymentHeader (header : String)
  | findMatchingRequirements (requirements : List PaymentRequirements) (paymentPayload : PaymentPayload)
  | verifyPayment (paymentPayload : PaymentPayload) (requirements : PaymentRequirements)
  | settlePayment (paymentPayload : PaymentPayload) (requirements : PaymentRequirements)
deriving Repr, DecidableEq

/-- The resource descriptor `execute` builds from its input and the resolved
product (lines 42 to 46 of ProcessX402Request.ts). -/
def resourceInfoOf (input : ProcessX402Input) (product : Product) : ResourceInfo :=
  { url := input.resourceUrl
    description := product.description
    mimeType := product.mimeType }

/-- The requirement-build request `execute` builds from the resolved vendor
and product (lines 48 to 54 of ProcessX402Request.ts): scheme fixed to
"exact", the product network and price, the vendor payout address, and the
fixed 60 second maximum timeout. -/
def resourceConfigOf (vendor : Vendor) (product : Product) : ResourceConfig :=
  { scheme := "exact"
    network := product.network
    price := product.price
    payTo := vendor.evmAddress
    maxTimeoutSeconds := some 60 }

/-- Shallow embedding of `ProcessX402Request.execute`.  The result pairs the
returned `ProcessX402Result` with the ordered trace of gateway calls; an
uncaught exception (only possible from `parsePaymentHeader`) is `Except.error`.
The empty-string case of `paymentHeader` follows the JavaScript truthiness
test `if (!input.paymentHeader)`: the empty string is falsy, so it takes the
no-proof branch. -/
def ProcessX402Request.execute
    (vendorRepository : IVendorRepository)
    (productRepository : IProductRepository)
    (paymentGateway : IPaymentGateway)
    (input : ProcessX402Input) :
    Except String (ProcessX402Result × List GatewayCall) :=
  match vendorRepository.findById input.vendorId with
  | none => Except.ok (ProcessX402Result.not_found "Vendor not found", [])
  | some vendor =>
    match productRepository.findByVendorIdAndPath input.vendorId input.path with
    | none => Except.ok (ProcessX402Result.not_found "Product not found", [])
    | some product =>
      let resourceInfo := resourceInfoOf input product
      let resourceConfig := resourceConfigOf vendor product
      let requirements := paymentGateway.buildPaymentRequirements resourceConfig
      match input.paymentHeader with
      | none =>
        let paymentRequired :=
          paymentGateway.createPaymentRequiredResponse requirements resourceInfo
        Except.ok (ProcessX402Result.payment_required paymentRequired,
          [GatewayCall.buildPaymentRequirements resourceConfig,
           GatewayCall.createPaymentRequiredResponse requirements resourceInfo])
      | some header =>
        if header = "" then
          let paymentRequired :=
            paymentGateway.createPaymentRequiredResponse requirements resourceInfo
          Except.ok (ProcessX402Result.payment_required paymentRequired,
            [GatewayCall.buildPaymentRequirements resourceConfig,
             GatewayCall.createPaymentRequiredResponse requirements resourceInfo])
        else
          match paymentGateway.parsePaymentHeader header with
          | Except.error e => Except.error e
          | Except.ok paymentPayload =>
            match paymentGateway.findMatchingRequirements requirements paymentPayload with
            | none =>
              let paymentRequired :=
                paymentGateway.createPaymentRequiredResponse requirements resourceInfo
              Except.ok (ProcessX402Result.payment_required paymentRequired,
                [GatewayCall.buildPaymentRequirements resourceConfig,
                 GatewayCall.parsePaymentHeader header,
                 GatewayCall.findMatchingRequirements requirements paymentPayload,
                 GatewayCall.createPaymentRequiredResponse requirements resourceInfo])
            | some matchingRequirements =>
              let verifyResult := paymentGateway.verifyPayment paymentPayload matchingRequirements
              if !verifyResult.isValid then
                Except.ok (ProcessX402Result.verification_failed
                    (verifyResult.invalidReason.getD "Unknown verification error"),
                  [GatewayCall.buildPaymentRequirements resourceConfig,
                   GatewayCall.parsePaymentHeader header,
                   GatewayCall.findMatchingRequirements requirements paymentPayload,
                   GatewayCall.verifyPayment paymentPayload matchingRequirements])
              else
                let settleResult := paymentGateway.settlePayment paymentPayload matchingRequirements
                if !settleResult.success then
                  Except.ok (ProcessX402Result.settlement_failed
                      (settleResult.errorReason.getD "Unknown settlement error"),
                    [GatewayCall.buildPaymentRequirements resourceConfig,
                     GatewayCall.parsePaymentHeader header,
                     GatewayCall.findMatchingRequirements requirements paymentPayload,
                     GatewayCall.verifyPayment paymentPayload matchingRequirements,
                     GatewayCall.settlePayment paymentPayload matchingRequirements])
                else
                  Except.ok (ProcessX402Result.success settleResult product,
                    [GatewayCall.buildPaymentRequirements resourceConfig,
                     GatewayCall.parsePaymentHeader header,
                     GatewayCall.findMatchingRequirements requirements paymentPayload,
                     GatewayCall.verifyPayment paymentPayload matchingRequirements,
                     GatewayCall.settlePayment paymentPayload matchingRequirements])

/-- Requirement building as implemented by the test double
`MockPaymentGateway.buildPaymentRequirements` (tests/application): one
requirement echoing the config, with a fixed asset and amount. -/
def MockPaymentGateway.buildPaymentRequirements (config : ResourceConfig) :
    List PaymentRequirements :=
  [{ scheme := config.scheme
     network := config.network
     asset := "0x036CbD53842c5426634e7929541eC2318f3dCF7e"
     amount := "1000"
     payTo := config.payTo
     maxTimeoutSeconds := config.maxTimeoutSeconds.getD 60
     extra := "" }]

/-- Challenge assembly as implemented by
`MockPaymentGateway.createPaymentRequiredResponse`: protocol version 2, the
given requirements and resource descriptor. -/
def MockPaymentGateway.createPaymentRequiredResponse
    (requirements : List PaymentRequirements) (resourceInfo : ResourceInfo) :
    PaymentRequired :=
  { x402Version := 2
    accepts := requirements
    resource := resourceInfo }

/-- Requirement matching as implemented by
`MockPaymentGateway.findMatchingRequirements` and specified by the port
contract: the first requirement whose scheme and network both equal the
scheme and network of the requirement the proof claims to satisfy. -/
def MockPaymentGateway.findMatchingRequirements
    (availableRequirements : List PaymentRequirements)
    (paymentPayload : PaymentPayload) : Option PaymentRequirements :=
  availableRequirements.find? fun r =>
    r.scheme == paymentPayload.accepted.scheme &&
    r.network == paymentPayload.accepted.network

/-- True exactly on the two mutating gateway calls: verification (an external
call) and settlement (an external state-changing call). -/
def GatewayCall.isMutating : GatewayCall → Bool
  | GatewayCall.verifyPayment _ _ => true
  | GatewayCall.settlePayment _ _ => true
  | _ => false

/-- True exactly on settlement calls. -/
def GatewayCall.isSettle : GatewayCall → Bool
  | GatewayCall.settlePayment _ _ => true
  | _ => false

/-- Number of settlement calls in a trace. -/
def settleCount (trace : List GatewayCall) : Nat :=
  trace.countP GatewayCall.isSettle

/-- The product contained in an outcome, if any: only the success variant
carries a product. -/
def ProcessX402Result.containedProduct : ProcessX402Result → Option Product
  | ProcessX402Result.success _ product => some product
  | _ => none

/-- True on the two read-only outcome classifications, payment required and
not found. -/
def ProcessX402Result.isReadOnlyOutcome : ProcessX402Result → Bool
  | ProcessX402Result.payment_required _ => true
  | ProcessX402Result.not_found _ => true
  | _ => false

/-- Concrete vendor used as a test fixture, mirroring the unit-test setup. -/
def testVendor : Vendor :=
  { id := "vendor-1"
    name := "Test Vendor"
    evmAddress := "0x1234567890123456789012345678901234567890" }

/-- Concrete product used as a test fixture, mirroring the unit-test setup. -/
def testProduct : Product :=
  { id := "product-1"
    vendorId := "vendor-1"
    path := "weather"
    price := "$0.001"
    network := "eip155:84532"
    description := "Weather API"
    mimeType := "application/json"
    data := "sunny" }

/-- In-memory vendor repository holding only `testVendor`. -/
def testVendorRepository : IVendorRepository :=
  { findById := fun id => if id = "vendor-1" then some testVendor else none }

/-- In-memory product repository holding only `testProduct`. -/
def testProductRepository : IProductRepository :=
  { findByVendorIdAndPath := fun vendorId path =>
      if vendorId = "vendor-1" ∧ path = "weather" then some testProduct else none }

/-- The single requirement the mock gateway builds for `testVendor` and
`testProduct`. -/
def testRequirement : PaymentRequirements :=
  { scheme := "exact"
    network := "eip155:84532"
    asset := "0x036CbD53842c5426634e7929541eC2318f3dCF7e"
    amount := "1000"
    payTo := "0x1234567890123456789012345678901234567890"
    maxTimeoutSeconds := 60
    extra := "" }

/-- A payment proof whose claimed requirement matches `testRequirement` on
scheme and network. -/
def testPayload : PaymentPayload :=
  { x402Version := 2
    resource := { url := "http://localhost:3000/vendor-1/weather"
                  description := "Weather API"
                  mimeType := "application/json" }
    accepted := testRequirement
    payload := "0xvalidSignature" }

/-- A payment proof claiming a requirement on a network the server does not
offer: its scheme and network match no freshly built requirement. -/
def stalePayload : PaymentPayload :=
  { x402Version := 2
    resource := { url := "http://localhost:3000/vendor-1/weather"
                  description := "Weather API"
                  mimeType := "application/json" }
    accepted := { testRequirement with network := "eip155:1" }
    payload := "0xstaleSignature" }

/-- A gateway with the pure mock operations and the given verification and
settlement behaviour.  The header "validHeader" decodes to `testPayload`,
"staleHeader" decodes to `stalePayload`, and every other header is malformed
and raises a decode error. -/
def mkGateway (verifyResult : VerifyResponse) (settleResult : SettleResponse) :
    IPaymentGateway :=
  { buildPaymentRequirements := MockPaymentGateway.buildPaymentRequirements
    createPaymentRequiredResponse := MockPaymentGateway.createPaymentRequiredResponse
    parsePaymentHeader := fun header =>
      if header = "validHeader" then Except.ok testPayload
      else if header = "staleHeader" then Except.ok stalePayload
      else Except.error "Unexpected token in JSON"
    findMatchingRequirements := MockPaymentGateway.findMatchingRequirements
    verifyPayment := fun _ _ => verifyResult
    settlePayment := fun _ _ => settleResult }

/-- A verification outcome reporting validity. -/
def validVerify : VerifyResponse :=
  { isValid := true, invalidReason := none, payer := some "0x1234" }

/-- A verification outcome reporting invalidity with a reason. -/
def invalidVerify : VerifyResponse :=
  { isValid := false, invalidReason := some "Invalid signature", payer := none }

/-- A successful settlement outcome. -/
def okSettle : SettleResponse :=
  { success := true
    transaction := "0xabc123"
    network := "eip155:84532"
    payer := some "0x1234"
    errorReason := none }

/-- A failed settlement outcome with a reason. -/
def failSettle : SettleResponse :=
  { success := false
    transaction := ""
    network := "eip155:84532"
    payer := none
    errorReason := some "Insufficient funds" }

/-- The happy-path gateway: valid verification, successful settlement. -/
def testGateway : IPaymentGateway := mkGateway validVerify okSettle

/-- Input fixture carrying a header that decodes to a matching proof. -/
def matchedInput : ProcessX402Input :=
  { vendorId := "vendor-1"
    path := "weather"
    resourceUrl := "http://localhost:3000/vendor-1/weather"
    paymentHeader := some "validHeader" }

/-- Claim C4: a request whose vendorId resolves to no vendor yields the
not-found outcome with reason exactly "Vendor not found", for any path and
any product-repository content; a request whose vendorId resolves but whose
vendor-and-path pair resolves to no product yields the not-found outcome with
reason exactly "Product not found".  The vendor lookup precedes the product
lookup. -/
theorem ProcessX402Request.execute_not_found_reasons
    (vendorRepository : IVendorRepository) (productRepository : IProductRepository)
    (paymentGateway : IPaymentGateway) (input : ProcessX402Input) :
    (vendorRepository.findById input.vendorId = none →
      ProcessX402Request.execute vendorRepository productRepository paymentGateway input
        = Except.ok (ProcessX402Result.not_found "Vendor not found", [])) ∧
    (∀ vendor, vendorRepository.findById input.vendorId = some vendor →
      productRepository.findByVendorIdAndPath input.vendorId input.path = none →
      ProcessX402Request.execute vendorRepository productRepository paymentGateway input
        = Except.ok (ProcessX402Result.not_found "Product not found", [])) := by
  constructor
  · intro hv
    unfold ProcessX402Request.execute
    rw [hv]
  · intro vendor hv hp
    unfold ProcessX402Request.execute
    rw [hv, hp]

/-- Witness for claim C4: an unknown vendor id yields "Vendor not found"
even with a known path, and a known vendor with an unknown path yields
"Product not found". -/
theorem ProcessX402Request.execute_not_found_reasons_witness :
    ProcessX402Request.execute testVendorRepository testProductRepository testGateway
        { vendorId := "ghost", path := "weather",
          resourceUrl := "http://localhost:3000/ghost/weather", paymentHeader := none }
      = Except.ok (ProcessX402Result.not_found "Vendor not found", []) ∧
    ProcessX402Request.execute testVendorRepository testProductRepository testGateway
        { vendorId := "vendor-1", path := "ghost",
          resourceUrl := "http://localhost:3000/vendor-1/ghost", paymentHeader := none }
      = Except.ok (ProcessX402Result.not_found "Product not found", []) :=
  ⟨(ProcessX402Request.execute_not_found_reasons testVendorRepository testProductRepository
      testGateway _).1 (by decide),
   (ProcessX402Request.execute_not_found_reasons testVendorRepository testProductRepository
      testGateway _).2 testVendor (by decide) (by decide)⟩

/-- The requirement-build request built for the test fixtures. -/
def testConfig : ResourceConfig := resourceConfigOf testVendor testProduct

/-- The gateway-call trace of the happy path on the test fixtures. -/
def successTrace : List GatewayCall :=
  [GatewayCall.buildPaymentRequirements testConfig,
   GatewayCall.parsePaymentHeader "validHeader",
   GatewayCall.findMatchingRequirements [testRequirement] testPayload,
   GatewayCall.verifyPayment testPayload testRequirement,
   GatewayCall.settlePayment testPayload testRequirement]

/-- Claim C1: in every invocation of execute, settlement is called at most
once, and any settlement call is immediately preceded, at the end of the
trace, by a verification call on the same matched proof and matched
requirement whose outcome is valid.  In particular no settlement call exists
whose proof and requirement did not verify as valid. -/
theorem ProcessX402Request.execute_settles_at_most_once
    (vendorRepository : IVendorRepository) (productRepository : IProductRepository)
    (paymentGateway : IPaymentGateway) (input : ProcessX402Input)
    (result : ProcessX402Result) (trace : List GatewayCall)
    (h : ProcessX402Request.execute vendorRepository productRepository paymentGateway input
          = Except.ok (result, trace)) :
    settleCount trace ≤ 1 ∧
    ∀ paymentPayload matchingRequirements,
      GatewayCall.settlePayment paymentPayload matchingRequirements ∈ trace →
        (paymentGateway.verifyPayment paymentPayload matchingRequirements).isValid = true ∧
        ∃ pre, trace = pre ++
            [GatewayCall.verifyPayment paymentPayload matchingRequirements,
             GatewayCall.settlePayment paymentPayload matchingRequirements] := by
  simp only [ProcessX402Request.execute] at h
  split at h
  · simp only [Except.ok.injEq, Prod.mk.injEq] at h
    obtain ⟨h1, h2⟩ := h
    subst h1; subst h2
    exact ⟨by simp [settleCount], by intro p r hm; simp at hm⟩
  next vendor hv =>
    split at h
    · simp only [Except.ok.injEq, Prod.mk.injEq] at h
      obtain ⟨h1, h2⟩ := h
      subst h1; subst h2
      exact ⟨by simp [settleCount], by intro p r hm; simp at hm⟩
    next product hp =>
      split at h
      · -- no payment header
        simp only [Except.ok.injEq, Prod.mk.injEq] at h
        obtain ⟨h1, h2⟩ := h
        subst h1; subst h2
        refine ⟨by simp [settleCount, GatewayCall.isSettle], ?_⟩
        intro p r hm
        simp [List.mem_cons] at hm
      next header =>
        split at h
        · -- empty payment header
          simp only [Except.ok.injEq, Prod.mk.injEq] at h
          obtain ⟨h1, h2⟩ := h
          subst h1; subst h2
          refine ⟨by simp [settleCount, GatewayCall.isSettle], ?_⟩
          intro p r hm
          simp [List.mem_cons] at hm
        · split at h
          · -- decode error propagates, no ok result
            exact absurd h (by simp)
          next paymentPayload hparse =>
            split at h
            · -- no matching requirement
              simp only [Except.ok.injEq, Prod.mk.injEq] at h
              obtain ⟨h1, h2⟩ := h
              subst h1; subst h2
              refine ⟨by simp [settleCount, GatewayCall.isSettle], ?_⟩
              intro p r hm
              simp [List.mem_cons] at hm
            next matched hmatch =>
              split at h
              · -- verification invalid
                simp only [Except.ok.injEq, Prod.mk.injEq] at h
                obtain ⟨h1, h2⟩ := h
                subst h1; subst h2
                refine ⟨by simp [settleCount, GatewayCall.isSettle], ?_⟩
                intro p r hm
                simp [List.mem_cons] at hm
              next hvalid =>
                split at h
                · -- settlement failed
                  simp only [Except.ok.injEq, Prod.mk.injEq] at h
                  obtain ⟨h1, h2⟩ := h
                  subst h1; subst h2
                  refine ⟨by simp [settleCount, GatewayCall.isSettle], ?_⟩
                  intro p r hm
                  simp [List.mem_cons] at hm
                  obtain ⟨rfl, rfl⟩ := hm
                  exact ⟨by simpa using hvalid,
                    [GatewayCall.buildPaymentRequirements _,
                     GatewayCall.parsePaymentHeader _,
                     GatewayCall.findMatchingRequirements _ _], rfl⟩
                · -- settlement succeeded
                  simp only [Except.ok.injEq, Prod.mk.injEq] at h
                  obtain ⟨h1, h2⟩ := h
                  subst h1; subst h2
                  refine ⟨by simp [settleCount, GatewayCall.isSettle], ?_⟩
                  intro p r hm
                  simp [List.mem_cons] at hm
                  obtain ⟨rfl, rfl⟩ := hm
                  exact ⟨by simpa using hvalid,
                    [GatewayCall.buildPaymentRequirements _,
                     GatewayCall.parsePaymentHeader _,
                     GatewayCall.findMatchingRequirements _ _], rfl⟩

/-- Witness for claim C1: on the happy path over the test fixtures the trace
contains exactly one settlement call and it directly follows its valid
verification call. -/
theorem ProcessX402Request.execute_settles_at_most_once_witness :
    settleCount successTrace ≤ 1 ∧
    ∀ paymentPayload matchingRequirements,
      GatewayCall.settlePayment paymentPayload matchingRequirements ∈ successTrace →
        (testGateway.verifyPayment paymentPayload matchingRequirements).isValid = true ∧
        ∃ pre, successTrace = pre ++
            [GatewayCall.verifyPayment paymentPayload matchingRequirements,
             GatewayCall.settlePayment paymentPayload matchingRequirements] :=
  ProcessX402Request.execute_settles_at_most_once testVendorRepository testProductRepository
    testGateway matchedInput (ProcessX402Result.success okSettle testProduct) successTrace
    (by rfl)

/-- Input fixture carrying a header that decodes to a proof claiming a
requirement the server no longer offers. -/
def staleInput : ProcessX402Input :=
  { vendorId := "vendor-1"
    path := "weather"
    resourceUrl := "http://localhost:3000/vendor-1/weather"
    paymentHeader := some "staleHeader" }

/-- Claim C2: when the supplied proof decodes but its claimed scheme and
network match no entry of the freshly built requirements list, execute
returns the payment-required outcome whose challenge is assembled from the
current requirements list and the current resource descriptor, not from the
claim carried by the proof.  The matching rule is the one of the gateway test
double and of the port contract: exact equality on scheme and network, first
match wins. -/
theorem ProcessX402Request.execute_no_match_returns_fresh_challenge
    (vendorRepository : IVendorRepository) (productRepository : IProductRepository)
    (paymentGateway : IPaymentGateway) (input : ProcessX402Input)
    (vendor : Vendor) (product : Product) (header : String) (paymentPayload : PaymentPayload)
    (hgw : paymentGateway.findMatchingRequirements = MockPaymentGateway.findMatchingRequirements)
    (hv : vendorRepository.findById input.vendorId = some vendor)
    (hp : productRepository.findByVendorIdAndPath input.vendorId input.path = some product)
    (hh : input.paymentHeader = some header)
    (hne : ¬header = "")
    (hparse : paymentGateway.parsePaymentHeader header = Except.ok paymentPayload)
    (hnomatch : ∀ r ∈ paymentGateway.buildPaymentRequirements (resourceConfigOf vendor product),
        ¬(r.scheme = paymentPayload.accepted.scheme ∧
          r.network = paymentPayload.accepted.network)) :
    ProcessX402Request.execute vendorRepository productRepository paymentGateway input
      = Except.ok
          (ProcessX402Result.payment_required
            (paymentGateway.createPaymentRequiredResponse
              (paymentGateway.buildPaymentRequirements (resourceConfigOf vendor product))
              (resourceInfoOf input product)),
           [GatewayCall.buildPaymentRequirements (resourceConfigOf vendor product),
            GatewayCall.parsePaymentHeader header,
            GatewayCall.findMatchingRequirements
              (paymentGateway.buildPaymentRequirements (resourceConfigOf vendor product))
              paymentPayload,
            GatewayCall.createPaymentRequiredResponse
              (paymentGateway.buildPaymentRequirements (resourceConfigOf vendor product))
              (resourceInfoOf input product)]) := by
  have hnone : paymentGateway.findMatchingRequirements
      (paymentGateway.buildPaymentRequirements (resourceConfigOf vendor product))
      paymentPayload = none := by
    rw [hgw]
    unfold MockPaymentGateway.findMatchingRequirements
    rw [List.find?_eq_none]
    intro r hr
    have hr2 := hnomatch r hr
    simp only [Bool.and_eq_true, beq_iff_eq]
    tauto
  simp only [ProcessX402Request.execute, hv, hp, hh, hne, hparse, hnone, if_neg]
  simp

/-- Witness for claim C2: the stale proof fixture claims a network the server
does not offer; execute answers with the fresh challenge built from the
current single requirement. -/
theorem ProcessX402Request.execute_no_match_returns_fresh_challenge_witness :
    ProcessX402Request.execute testVendorRepository testProductRepository testGateway staleInput
      = Except.ok
          (ProcessX402Result.payment_required
            (testGateway.createPaymentRequiredResponse
              (testGateway.buildPaymentRequirements (resourceConfigOf testVendor testProduct))
              (resourceInfoOf staleInput testProduct)),
           [GatewayCall.buildPaymentRequirements (resourceConfigOf testVendor testProduct),
            GatewayCall.parsePaymentHeader "staleHeader",
            GatewayCall.findMatchingRequirements
              (testGateway.buildPaymentRequirements (resourceConfigOf testVendor testProduct))
              stalePayload,
            GatewayCall.createPaymentRequiredResponse
              (testGateway.buildPaymentRequirements (resourceConfigOf testVendor testProduct))
              (resourceInfoOf staleInput testProduct)]) :=
  ProcessX402Request.execute_no_match_returns_fresh_challenge
    testVendorRepository testProductRepository testGateway staleInput
    testVendor testProduct "staleHeader" stalePayload
    (by rfl) (by decide) (by decide) (by decide) (by decide) (by rfl) (by decide)

/-- Input fixture carrying a header the gateway cannot decode. -/
def malformedInput : ProcessX402Input :=
  { vendorId := "vendor-1"
    path := "weather"
    resourceUrl := "http://localhost:3000/vendor-1/weather"
    paymentHeader := some "not-a-base64-json-envelope" }

/-- Counterexample to claim C3: with a resolvable vendor and product and a
malformed payment header, execute does not return any of the five outcome
variants: the decode exception raised by parsePaymentHeader escapes execute
(there is no try/catch around the call), modelled as the error value. -/
theorem ProcessX402Request.execute_malformed_header_raises :
    ProcessX402Request.execute testVendorRepository testProductRepository testGateway
      malformedInput = Except.error "Unexpected token in JSON" := by
  rfl

/-- Claim C3 as amended: the only escaping exception of execute is the decode
error of parsePaymentHeader on a supplied non-empty header, propagated
unchanged; every other expected condition yields one of the five outcome
variants. -/
theorem ProcessX402Request.execute_error_only_from_decode
    (vendorRepository : IVendorRepository) (productRepository : IProductRepository)
    (paymentGateway : IPaymentGateway) (input : ProcessX402Input) (e : String)
    (h : ProcessX402Request.execute vendorRepository productRepository paymentGateway input
          = Except.error e) :
    ∃ header, input.paymentHeader = some header ∧ ¬header = "" ∧
      paymentGateway.parsePaymentHeader header = Except.error e := by
  simp only [ProcessX402Request.execute] at h
  split at h
  · exact absurd h (by simp)
  next vendor hv =>
    split at h
    · exact absurd h (by simp)
    next product hp =>
      split at h
      · exact absurd h (by simp)
      next header hh =>
        split at h
        · exact absurd h (by simp)
        next hne =>
          split at h
          next e2 hparse =>
            simp only [Except.error.injEq] at h
            subst h
            exact ⟨header, hh, hne, hparse⟩
          next paymentPayload hparse =>
            split at h
            · exact absurd h (by simp)
            next matched hmatch =>
              split at h
              · exact absurd h (by simp)
              · split at h
                · exact absurd h (by simp)
                · exact absurd h (by simp)

/-- Witness for the amended claim C3: the malformed-header run above indeed
traces back to a decode error on its header. -/
theorem ProcessX402Request.execute_error_only_from_decode_witness :
    ∃ header, malformedInput.paymentHeader = some header ∧ ¬header = "" ∧
      testGateway.parsePaymentHeader header = Except.error "Unexpected token in JSON" :=
  ProcessX402Request.execute_error_only_from_decode
    testVendorRepository testProductRepository testGateway malformedInput
    "Unexpected token in JSON" (by rfl)

/-- Input fixture with no payment header. -/
def noProofInput : ProcessX402Input :=
  { vendorId := "vendor-1"
    path := "weather"
    resourceUrl := "http://localhost:3000/vendor-1/weather"
    paymentHeader := none }

/-- Claim C5: with no payment proof and a resolvable vendor and product,
execute returns the payment-required outcome; the requirement-build request
it passes to the gateway carries scheme "exact", the product network, the
product price, the vendor payout address and the fixed 60 second maximum
timeout; and, with the gateway test double for building and assembly, the
payee of the first requirement of the returned challenge equals the vendor
payout address. -/
theorem ProcessX402Request.execute_no_proof_payment_required
    (vendorRepository : IVendorRepository) (productRepository : IProductRepository)
    (paymentGateway : IPaymentGateway) (input : ProcessX402Input)
    (vendor : Vendor) (product : Product)
    (hbuild : paymentGateway.buildPaymentRequirements
                = MockPaymentGateway.buildPaymentRequirements)
    (hcreate : paymentGateway.createPaymentRequiredResponse
                = MockPaymentGateway.createPaymentRequiredResponse)
    (hv : vendorRepository.findById input.vendorId = some vendor)
    (hp : productRepository.findByVendorIdAndPath input.vendorId input.path = some product)
    (hh : input.paymentHeader = none) :
    ProcessX402Request.execute vendorRepository productRepository paymentGateway input
      = Except.ok
          (ProcessX402Result.payment_required
            (paymentGateway.createPaymentRequiredResponse
              (paymentGateway.buildPaymentRequirements
                { scheme := "exact", network := product.network, price := product.price,
                  payTo := vendor.evmAddress, maxTimeoutSeconds := some 60 })
              (resourceInfoOf input product)),
           [GatewayCall.buildPaymentRequirements
              { scheme := "exact", network := product.network, price := product.price,
                payTo := vendor.evmAddress, maxTimeoutSeconds := some 60 },
            GatewayCall.createPaymentRequiredResponse
              (paymentGateway.buildPaymentRequirements
                { scheme := "exact", network := product.network, price := product.price,
                  payTo := vendor.evmAddress, maxTimeoutSeconds := some 60 })
              (resourceInfoOf input product)]) ∧
    ((paymentGateway.createPaymentRequiredResponse
        (paymentGateway.buildPaymentRequirements
          { scheme := "exact", network := product.network, price := product.price,
            payTo := vendor.evmAddress, maxTimeoutSeconds := some 60 })
        (resourceInfoOf input product)).accepts.head?).map PaymentRequirements.payTo
      = some vendor.evmAddress := by
  constructor
  · simp only [ProcessX402Request.execute, hv, hp, hh]
    rfl
  · rw [hbuild, hcreate]
    simp [MockPaymentGateway.buildPaymentRequirements,
          MockPaymentGateway.createPaymentRequiredResponse]

/-- Witness for claim C5: the no-proof fixture yields the payment-required
outcome and the first offered requirement pays out to the test vendor. -/
theorem ProcessX402Request.execute_no_proof_payment_required_witness :
    ProcessX402Request.execute testVendorRepository testProductRepository testGateway
        noProofInput
      = Except.ok
          (ProcessX402Result.payment_required
            (testGateway.createPaymentRequiredResponse
              (testGateway.buildPaymentRequirements
                { scheme := "exact", network := testProduct.network,
                  price := testProduct.price, payTo := testVendor.evmAddress,
                  maxTimeoutSeconds := some 60 })
              (resourceInfoOf noProofInput testProduct)),
           [GatewayCall.buildPaymentRequirements
              { scheme := "exact", network := testProduct.network,
                price := testProduct.price, payTo := testVendor.evmAddress,
                maxTimeoutSeconds := some 60 },
            GatewayCall.createPaymentRequiredResponse
              (testGateway.buildPaymentRequirements
                { scheme := "exact", network := testProduct.network,
                  price := testProduct.price, payTo := testVendor.evmAddress,
                  maxTimeoutSeconds := some 60 })
              (resourceInfoOf noProofInput testProduct)]) ∧
    ((testGateway.createPaymentRequiredResponse
        (testGateway.buildPaymentRequirements
          { scheme := "exact", network := testProduct.network,
            price := testProduct.price, payTo := testVendor.evmAddress,
            maxTimeoutSeconds := some 60 })
        (resourceInfoOf noProofInput testProduct)).accepts.head?).map
          PaymentRequirements.payTo
      = some testVendor.evmAddress :=
  ProcessX402Request.execute_no_proof_payment_required
    testVendorRepository testProductRepository testGateway noProofInput
    testVendor testProduct (by rfl) (by rfl) (by decide) (by decide) (by decide)

/-- Claim C6: when the matched proof fails verification, execute returns the
verification-failed outcome, its reason is the port-supplied explanation when
one is given and the default placeholder otherwise, and the invocation
terminates there: the trace ends at the verification call, with no
settlement call. -/
theorem ProcessX402Request.execute_verification_failed_path
    (vendorRepository : IVendorRepository) (productRepository : IProductRepository)
    (paymentGateway : IPaymentGateway) (input : ProcessX402Input)
    (vendor : Vendor) (product : Product) (header : String)
    (paymentPayload : PaymentPayload) (matchingRequirements : PaymentRequirements)
    (hv : vendorRepository.findById input.vendorId = some vendor)
    (hp : productRepository.findByVendorIdAndPath input.vendorId input.path = some product)
    (hh : input.paymentHeader = some header)
    (hne : ¬header = "")
    (hparse : paymentGateway.parsePaymentHeader header = Except.ok paymentPayload)
    (hmatch : paymentGateway.findMatchingRequirements
        (paymentGateway.buildPaymentRequirements (resourceConfigOf vendor product))
        paymentPayload = some matchingRequirements)
    (hinvalid : (paymentGateway.verifyPayment paymentPayload matchingRequirements).isValid
        = false) :
    ProcessX402Request.execute vendorRepository productRepository paymentGateway input
      = Except.ok
          (ProcessX402Result.verification_failed
            ((paymentGateway.verifyPayment paymentPayload
                matchingRequirements).invalidReason.getD "Unknown verification error"),
           [GatewayCall.buildPaymentRequirements (resourceConfigOf vendor product),
            GatewayCall.parsePaymentHeader header,
            GatewayCall.findMatchingRequirements
              (paymentGateway.buildPaymentRequirements (resourceConfigOf vendor product))
              paymentPayload,
            GatewayCall.verifyPayment paymentPayload matchingRequirements]) := by
  simp only [ProcessX402Request.execute, hv, hp, hh, hne, hparse, hmatch, hinvalid]
  simp

/-- Witness for claim C6: with a gateway reporting an invalid signature,
execute on the matched fixture returns verification failed with the
port-supplied reason and never calls settlement. -/
theorem ProcessX402Request.execute_verification_failed_path_witness :
    ProcessX402Request.execute testVendorRepository testProductRepository
        (mkGateway invalidVerify okSettle) matchedInput
      = Except.ok
          (ProcessX402Result.verification_failed
            (((mkGateway invalidVerify okSettle).verifyPayment testPayload
                testRequirement).invalidReason.getD "Unknown verification error"),
           [GatewayCall.buildPaymentRequirements (resourceConfigOf testVendor testProduct),
            GatewayCall.parsePaymentHeader "validHeader",
            GatewayCall.findMatchingRequirements
              ((mkGateway invalidVerify okSettle).buildPaymentRequirements
                (resourceConfigOf testVendor testProduct))
              testPayload,
            GatewayCall.verifyPayment testPayload testRequirement]) :=
  ProcessX402Request.execute_verification_failed_path
    testVendorRepository testProductRepository (mkGateway invalidVerify okSettle) matchedInput
    testVendor testProduct "validHeader" testPayload testRequirement
    (by decide) (by decide) (by decide) (by decide) (by rfl) (by decide) (by decide)

/-- Claim C7: when the matched proof verifies but settlement reports failure,
execute returns the settlement-failed outcome with the port-supplied reason
when one is given and the default placeholder otherwise, and no product is
contained in the outcome: only the success variant carries a product. -/
theorem ProcessX402Request.execute_settlement_failed_path
    (vendorRepository : IVendorRepository) (productRepository : IProductRepository)
    (paymentGateway : IPaymentGateway) (input : ProcessX402Input)
    (vendor : Vendor) (product : Product) (header : String)
    (paymentPayload : PaymentPayload) (matchingRequirements : PaymentRequirements)
    (hv : vendorRepository.findById input.vendorId = some vendor)
    (hp : productRepository.findByVendorIdAndPath input.vendorId input.path = some product)
    (hh : input.paymentHeader = some header)
    (hne : ¬header = "")
    (hparse : paymentGateway.parsePaymentHeader header = Except.ok paymentPayload)
    (hmatch : paymentGateway.findMatchingRequirements
        (paymentGateway.buildPaymentRequirements (resourceConfigOf vendor product))
        paymentPayload = some matchingRequirements)
    (hvalid : (paymentGateway.verifyPayment paymentPayload matchingRequirements).isValid
        = true)
    (hfail : (paymentGateway.settlePayment paymentPayload matchingRequirements).success
        = false) :
    ProcessX402Request.execute vendorRepository productRepository paymentGateway input
      = Except.ok
          (ProcessX402Result.settlement_failed
            ((paymentGateway.settlePayment paymentPayload
                matchingRequirements).errorReason.getD "Unknown settlement error"),
           [GatewayCall.buildPaymentRequirements (resourceConfigOf vendor product),
            GatewayCall.parsePaymentHeader header,
            GatewayCall.findMatchingRequirements
              (paymentGateway.buildPaymentRequirements (resourceConfigOf vendor product))
              paymentPayload,
            GatewayCall.verifyPayment paymentPayload matchingRequirements,
            GatewayCall.settlePayment paymentPayload matchingRequirements]) ∧
    (ProcessX402Result.settlement_failed
        ((paymentGateway.settlePayment paymentPayload
            matchingRequirements).errorReason.getD
          "Unknown settlement error")).containedProduct = none := by
  constructor
  · simp only [ProcessX402Request.execute, hv, hp, hh, hne, hparse, hmatch, hvalid, hfail]
    simp
  · rfl

/-- Witness for claim C7: with a gateway reporting insufficient funds at
settlement, execute on the matched fixture returns settlement failed with
that reason, and the outcome contains no product. -/
theorem ProcessX402Request.execute_settlement_failed_path_witness :
    ProcessX402Request.execute testVendorRepository testProductRepository
        (mkGateway validVerify failSettle) matchedInput
      = Except.ok
          (ProcessX402Result.settlement_failed
            (((mkGateway validVerify failSettle).settlePayment testPayload
                testRequirement).errorReason.getD "Unknown settlement error"),
           [GatewayCall.buildPaymentRequirements (resourceConfigOf testVendor testProduct),
            GatewayCall.parsePaymentHeader "validHeader",
            GatewayCall.findMatchingRequirements
              ((mkGateway validVerify failSettle).buildPaymentRequirements
                (resourceConfigOf testVendor testProduct))
              testPayload,
            GatewayCall.verifyPayment testPayload testRequirement,
            GatewayCall.settlePayment testPayload testRequirement]) ∧
    (ProcessX402Result.settlement_failed
        (((mkGateway validVerify failSettle).settlePayment testPayload
            testRequirement).errorReason.getD
          "Unknown settlement error")).containedProduct = none :=
  ProcessX402Request.execute_settlement_failed_path
    testVendorRepository testProductRepository (mkGateway validVerify failSettle) matchedInput
    testVendor testProduct "validHeader" testPayload testRequirement
    (by decide) (by decide) (by decide) (by decide) (by rfl) (by decide) (by decide) (by decide)

/-- Claim C8: when the matched proof verifies and settlement succeeds,
execute returns the success outcome carrying exactly the settlement response
produced by the gateway and exactly the product resolved from the catalog for
the vendor and path, unmodified. -/
theorem ProcessX402Request.execute_success_path
    (vendorRepository : IVendorRepository) (productRepository : IProductRepository)
    (paymentGateway : IPaymentGateway) (input : ProcessX402Input)
    (vendor : Vendor) (product : Product) (header : String)
    (paymentPayload : PaymentPayload) (matchingRequirements : PaymentRequirements)
    (hv : vendorRepository.findById input.vendorId = some vendor)
    (hp : productRepository.findByVendorIdAndPath input.vendorId input.path = some product)
    (hh : input.paymentHeader = some header)
    (hne : ¬header = "")
    (hparse : paymentGateway.parsePaymentHeader header = Except.ok paymentPayload)
    (hmatch : paymentGateway.findMatchingRequirements
        (paymentGateway.buildPaymentRequirements (resourceConfigOf vendor product))
        paymentPayload = some matchingRequirements)
    (hvalid : (paymentGateway.verifyPayment paymentPayload matchingRequirements).isValid
        = true)
    (hsucc : (paymentGateway.settlePayment paymentPayload matchingRequirements).success
        = true) :
    ProcessX402Request.execute vendorRepository productRepository paymentGateway input
      = Except.ok
          (ProcessX402Result.success
            (paymentGateway.settlePayment paymentPayload matchingRequirements) product,
           [GatewayCall.buildPaymentRequirements (resourceConfigOf vendor product),
            GatewayCall.parsePaymentHeader header,
            GatewayCall.findMatchingRequirements
              (paymentGateway.buildPaymentRequirements (resourceConfigOf vendor product))
              paymentPayload,
            GatewayCall.verifyPayment paymentPayload matchingRequirements,
            GatewayCall.settlePayment paymentPayload matchingRequirements]) := by
  simp only [ProcessX402Request.execute, hv, hp, hh, hne, hparse, hmatch, hvalid, hsucc]
  simp

/-- Witness for claim C8: on the happy-path fixtures execute returns success
carrying the settlement response of the gateway and the stored product with
its content payload. -/
theorem ProcessX402Request.execute_success_path_witness :
    ProcessX402Request.execute testVendorRepository testProductRepository testGateway
        matchedInput
      = Except.ok
          (ProcessX402Result.success
            (testGateway.settlePayment testPayload testRequirement) testProduct,
           [GatewayCall.buildPaymentRequirements (resourceConfigOf testVendor testProduct),
            GatewayCall.parsePaymentHeader "validHeader",
            GatewayCall.findMatchingRequirements
              (testGateway.buildPaymentRequirements (resourceConfigOf testVendor testProduct))
              testPayload,
            GatewayCall.verifyPayment testPayload testRequirement,
            GatewayCall.settlePayment testPayload testRequirement]) :=
  ProcessX402Request.execute_success_path
    testVendorRepository testProductRepository testGateway matchedInput
    testVendor testProduct "validHeader" testPayload testRequirement
    (by decide) (by decide) (by decide) (by decide) (by rfl) (by decide) (by decide) (by decide)

/-- The gateway-call trace of the stale-proof (no-match) path on the test
fixtures. -/
def staleTrace : List GatewayCall :=
  [GatewayCall.buildPaymentRequirements testConfig,
   GatewayCall.parsePaymentHeader "staleHeader",
   GatewayCall.findMatchingRequirements [testRequirement] stalePayload,
   GatewayCall.createPaymentRequiredResponse [testRequirement]
     (resourceInfoOf staleInput testProduct)]

/-- Claim C9: when a run classifies as payment required or not found (the
no-proof and no-match paths), its trace contains no mutating gateway call,
and a second run with identical input against any backend that agrees on the
deterministic lookup, decode, match and build operations (its verification
and settlement behaviour may have changed arbitrarily in between) returns the
identical outcome and trace. -/
theorem ProcessX402Request.execute_read_only_paths_repeatable
    (vendorRepository : IVendorRepository) (productRepository : IProductRepository)
    (gatewayFirst gatewaySecond : IPaymentGateway) (input : ProcessX402Input)
    (result : ProcessX402Result) (trace : List GatewayCall)
    (hbuild : gatewayFirst.buildPaymentRequirements = gatewaySecond.buildPaymentRequirements)
    (hcreate : gatewayFirst.createPaymentRequiredResponse
                = gatewaySecond.createPaymentRequiredResponse)
    (hparse : gatewayFirst.parsePaymentHeader = gatewaySecond.parsePaymentHeader)
    (hfind : gatewayFirst.findMatchingRequirements = gatewaySecond.findMatchingRequirements)
    (hrun : ProcessX402Request.execute vendorRepository productRepository gatewayFirst input
              = Except.ok (result, trace))
    (hclass : result.isReadOnlyOutcome = true) :
    ProcessX402Request.execute vendorRepository productRepository gatewaySecond input
        = Except.ok (result, trace) ∧
    ∀ c ∈ trace, c.isMutating = false := by
  simp only [ProcessX402Request.execute] at hrun
  split at hrun
  next hv =>
    simp only [Except.ok.injEq, Prod.mk.injEq] at hrun
    obtain ⟨h1, h2⟩ := hrun
    subst h1; subst h2
    refine ⟨?_, by intro c hc; simp at hc⟩
    simp only [ProcessX402Request.execute, hv]
  next vendor hv =>
    split at hrun
    next hp =>
      simp only [Except.ok.injEq, Prod.mk.injEq] at hrun
      obtain ⟨h1, h2⟩ := hrun
      subst h1; subst h2
      refine ⟨?_, by intro c hc; simp at hc⟩
      simp only [ProcessX402Request.execute, hv, hp]
    next product hp =>
      split at hrun
      next hh =>
        -- no payment header
        simp only [Except.ok.injEq, Prod.mk.injEq] at hrun
        obtain ⟨h1, h2⟩ := hrun
        subst h1; subst h2
        constructor
        · simp only [ProcessX402Request.execute, hv, hp, hh, hbuild, hcreate]
        · intro c hc
          simp [List.mem_cons] at hc
          rcases hc with rfl | rfl <;> rfl
      next header hh =>
        split at hrun
        next hemp =>
          -- empty payment header
          simp only [Except.ok.injEq, Prod.mk.injEq] at hrun
          obtain ⟨h1, h2⟩ := hrun
          subst h1; subst h2
          constructor
          · simp only [ProcessX402Request.execute, hv, hp, hh, hemp, hbuild, hcreate]
            simp
          · intro c hc
            simp [List.mem_cons] at hc
            rcases hc with rfl | rfl <;> rfl
        next hemp =>
          split at hrun
          next e hparse2 =>
            exact absurd hrun (by simp)
          next paymentPayload hparse2 =>
            rw [hparse] at hparse2
            split at hrun
            next hmatch =>
              -- no matching requirement
              rw [hfind, hbuild] at hmatch
              simp only [Except.ok.injEq, Prod.mk.injEq] at hrun
              obtain ⟨h1, h2⟩ := hrun
              subst h1; subst h2
              constructor
              · simp only [ProcessX402Request.execute, hv, hp, hh, hemp, hparse2,
                  hmatch, hbuild, hcreate]
                simp
              · intro c hc
                simp [List.mem_cons] at hc
                rcases hc with rfl | rfl | rfl | rfl <;> rfl
            next matched hmatch =>
              split at hrun
              · simp only [Except.ok.injEq, Prod.mk.injEq] at hrun
                obtain ⟨h1, h2⟩ := hrun
                subst h1; subst h2
                exact absurd hclass (by simp [ProcessX402Result.isReadOnlyOutcome])
              · split at hrun
                · simp only [Except.ok.injEq, Prod.mk.injEq] at hrun
                  obtain ⟨h1, h2⟩ := hrun
                  subst h1; subst h2
                  exact absurd hclass (by simp [ProcessX402Result.isReadOnlyOutcome])
                · simp only [Except.ok.injEq, Prod.mk.injEq] at hrun
                  obtain ⟨h1, h2⟩ := hrun
                  subst h1; subst h2
                  exact absurd hclass (by simp [ProcessX402Result.isReadOnlyOutcome])

/-- Witness for claim C9: a first run on the stale-proof fixture classifies
as payment required with a mutation-free trace, and a second run against a
backend whose verification and settlement behaviour changed in between
returns the identical outcome and trace. -/
theorem ProcessX402Request.execute_read_only_paths_repeatable_witness :
    ProcessX402Request.execute testVendorRepository testProductRepository
        (mkGateway invalidVerify failSettle) staleInput
      = Except.ok
          (ProcessX402Result.payment_required
            { x402Version := 2, accepts := [testRequirement],
              resource := resourceInfoOf staleInput testProduct },
           staleTrace) ∧
    ∀ c ∈ staleTrace, c.isMutating = false :=
  ProcessX402Request.execute_read_only_paths_repeatable
    testVendorRepository testProductRepository testGateway
    (mkGateway invalidVerify failSettle) staleInput
    (ProcessX402Result.payment_required
      { x402Version := 2, accepts := [testRequirement],
        resource := resourceInfoOf staleInput testProduct })
    staleTrace
    (by rfl) (by rfl) (by rfl) (by rfl) (by rfl) (by rfl)

/-- Claim C10: a present but empty payment header is treated exactly as an
absent proof: execute returns the same value as with no header at all, it
never raises a decode error, its trace contains no parsePaymentHeader call,
and with a resolvable vendor and product the outcome is payment required. -/
theorem ProcessX402Request.execute_empty_header_as_absent
    (vendorRepository : IVendorRepository) (productRepository : IProductRepository)
    (paymentGateway : IPaymentGateway) (vendorId path resourceUrl : String) :
    ProcessX402Request.execute vendorRepository productRepository paymentGateway
        { vendorId := vendorId, path := path, resourceUrl := resourceUrl,
          paymentHeader := some "" }
      = ProcessX402Request.execute vendorRepository productRepository paymentGateway
          { vendorId := vendorId, path := path, resourceUrl := resourceUrl,
            paymentHeader := none } ∧
    (∀ e, ProcessX402Request.execute vendorRepository productRepository paymentGateway
        { vendorId := vendorId, path := path, resourceUrl := resourceUrl,
          paymentHeader := some "" } ≠ Except.error e) ∧
    (∀ result trace,
      ProcessX402Request.execute vendorRepository productRepository paymentGateway
          { vendorId := vendorId, path := path, resourceUrl := resourceUrl,
            paymentHeader := some "" }
        = Except.ok (result, trace) →
      (∀ header, GatewayCall.parsePaymentHeader header ∉ trace) ∧
      (∀ vendor product,
        vendorRepository.findById vendorId = some vendor →
        productRepository.findByVendorIdAndPath vendorId path = some product →
        ∃ paymentRequired, result = ProcessX402Result.payment_required paymentRequired)) := by
  cases hv : vendorRepository.findById vendorId with
  | none =>
    refine ⟨by simp only [ProcessX402Request.execute, hv], ?_, ?_⟩
    · intro e he
      simp only [ProcessX402Request.execute, hv] at he
      exact absurd he (by simp)
    · intro result trace hok
      simp only [ProcessX402Request.execute, hv, Except.ok.injEq, Prod.mk.injEq] at hok
      obtain ⟨h1, h2⟩ := hok
      subst h1; subst h2
      refine ⟨by intro header hmem; simp at hmem, ?_⟩
      intro vendor product hv2 hp2
      exact absurd hv2 (by simp)
  | some vendor =>
    cases hp : productRepository.findByVendorIdAndPath vendorId path with
    | none =>
      refine ⟨by simp only [ProcessX402Request.execute, hv, hp], ?_, ?_⟩
      · intro e he
        simp only [ProcessX402Request.execute, hv, hp] at he
        exact absurd he (by simp)
      · intro result trace hok
        simp only [ProcessX402Request.execute, hv, hp, Except.ok.injEq, Prod.mk.injEq] at hok
        obtain ⟨h1, h2⟩ := hok
        subst h1; subst h2
        refine ⟨by intro header hmem; simp at hmem, ?_⟩
        intro vendor2 product hv2 hp2
        exact absurd hp2 (by simp)
    | some product =>
      refine ⟨by simp only [ProcessX402Request.execute, hv, hp]; simp [resourceInfoOf],
        ?_, ?_⟩
      · intro e he
        simp only [ProcessX402Request.execute, hv, hp] at he
        simp at he
      · intro result trace hok
        simp only [ProcessX402Request.execute, hv, hp] at hok
        simp only [reduceIte, Except.ok.injEq, Prod.mk.injEq] at hok
        obtain ⟨h1, h2⟩ := hok
        subst h1; subst h2
        refine ⟨by intro header hmem; simp [List.mem_cons] at hmem, ?_⟩
        intro vendor2 product2 hv2 hp2
        exact ⟨_, rfl⟩

/-- Input fixture whose payment header is present but empty. -/
def emptyHeaderInput : ProcessX402Input :=
  { vendorId := "vendor-1"
    path := "weather"
    resourceUrl := "http://localhost:3000/vendor-1/weather"
    paymentHeader := some "" }

/-- The resource descriptor built for the test fixtures. -/
def testResourceInfo : ResourceInfo :=
  { url := "http://localhost:3000/vendor-1/weather"
    description := "Weather API"
    mimeType := "application/json" }

/-- The gateway-call trace of the no-proof path on the test fixtures. -/
def noProofTrace : List GatewayCall :=
  [GatewayCall.buildPaymentRequirements testConfig,
   GatewayCall.createPaymentRequiredResponse [testRequirement] testResourceInfo]

/-- Witness for claim C10: on the test fixtures the empty-header run equals
the no-header run, and its trace (the no-proof trace) contains no decode
call, the outcome being payment required. -/
theorem ProcessX402Request.execute_empty_header_as_absent_witness :
    ProcessX402Request.execute testVendorRepository testProductRepository testGateway
        emptyHeaderInput
      = ProcessX402Request.execute testVendorRepository testProductRepository testGateway
          noProofInput ∧
    (∀ header, GatewayCall.parsePaymentHeader header ∉ noProofTrace) ∧
    ∃ paymentRequired,
      ProcessX402Result.payment_required
          { x402Version := 2, accepts := [testRequirement], resource := testResourceInfo }
        = ProcessX402Result.payment_required paymentRequired :=
  ⟨(ProcessX402Request.execute_empty_header_as_absent testVendorRepository
      testProductRepository testGateway "vendor-1" "weather"
      "http://localhost:3000/vendor-1/weather").1,
   ((ProcessX402Request.execute_empty_header_as_absent testVendorRepository
      testProductRepository testGateway "vendor-1" "weather"
      "http://localhost:3000/vendor-1/weather").2.2
      (ProcessX402Result.payment_required
        { x402Version := 2, accepts := [testRequirement], resource := testResourceInfo })
      noProofTrace (by rfl)).1,
   ((ProcessX402Request.execute_empty_header_as_absent testVendorRepository
      testProductRepository testGateway "vendor-1" "weather"
      "http://localhost:3000/vendor-1/weather").2.2
      (ProcessX402Result.payment_required
        { x402Version := 2, accepts := [testRequirement], resource := testResourceInfo })
      noProofTrace (by rfl)).2 testVendor testProduct (by decide) (by decide)⟩
